import Mathlib

/-!
Shallow embedding of the SuperStore KPI dashboard pipeline (src/app.py) and
proofs about its filter pipeline, KPI aggregation, time-series resampling,
rolling averages and categorical aggregators.

Modelling choices:
* a dataframe is a `List Row`; `Order Date` is the number of days since
  1970-01-01 (an `ℤ`), money amounts and rates are rationals;
* pandas `NaN` cells (e.g. the mean of an empty resample bucket) are `none`
  in an `Option ℚ`; missing-value (`dropna`) handling is trivial here since
  every modelled cell is present;
* the in-place column assignment `df["Profit Margin"] = ...` (line 383) is
  modelled by `addProfitMargin`, which produces the updated dataframe from
  the old one, the extra column being the `profitMargin` field of `Row`
  (absent, i.e. `none`, until that assignment runs).
-/

namespace SuperStore

/-- One transaction record (one row of the Superstore sheet).
The `profitMargin` field models the "Profit Margin" column added at
src/app.py line 383; it is `none` (column absent) in the loaded data. -/
structure Row where
  orderDate : ℤ
  region : String
  state : String
  category : String
  subCategory : String
  productName : String
  sales : ℚ
  quantity : ℚ
  profit : ℚ
  discount : ℚ
  profitMargin : Option ℚ := none
deriving DecidableEq, Repr

/-- The sidebar filter selection: the four multiselect sets and the date
range (src/app.py lines 138, 143, 148, 153, 165-166). -/
structure Selection where
  regions : List String
  states : List String
  categories : List String
  subCategories : List String
  fromDate : ℤ
  toDate : ℤ
deriving DecidableEq, Repr

/-- Region filter, line 139: `df_original[df_original["Region"].isin(selected_regions)]
if selected_regions else df_original`. -/
def filterRegion (sel : Selection) (d : List Row) : List Row :=
  if sel.regions.isEmpty then d
  else d.filter (fun r => decide (r.region ∈ sel.regions))

/-- State filter, line 144. -/
def filterState (sel : Selection) (d : List Row) : List Row :=
  if sel.states.isEmpty then d
  else d.filter (fun r => decide (r.state ∈ sel.states))

/-- Category filter, line 149. -/
def filterCategory (sel : Selection) (d : List Row) : List Row :=
  if sel.categories.isEmpty then d
  else d.filter (fun r => decide (r.category ∈ sel.categories))

/-- Sub-category filter, line 154. -/
def filterSubCategory (sel : Selection) (d : List Row) : List Row :=
  if sel.subCategories.isEmpty then d
  else d.filter (fun r => decide (r.subCategory ∈ sel.subCategories))

/-- Date-range filter, lines 171-174: keep rows with
`from_date <= Order Date <= to_date` (the trailing `.copy()` makes `df` a
fresh frame, which a pure function gives for free). -/
def filterDate (sel : Selection) (d : List Row) : List Row :=
  d.filter (fun r => decide (sel.fromDate ≤ r.orderDate ∧ r.orderDate ≤ sel.toDate))

/-- The working dataset `df`: the five filters applied in source order
region, state, category, sub-category, date range (lines 136-174). -/
def workingDataset (sel : Selection) (orig : List Row) : List Row :=
  filterDate sel (filterSubCategory sel (filterCategory sel (filterState sel (filterRegion sel orig))))

/-- The sidebar warning condition of line 168: `from_date > to_date`. -/
def dateRangeWarning (sel : Selection) : Bool :=
  decide (sel.toDate < sel.fromDate)

/-- Row-level predicate equivalent to passing all five filters. -/
def rowMatches (sel : Selection) (r : Row) : Bool :=
  (sel.regions.isEmpty || decide (r.region ∈ sel.regions)) &&
  (sel.states.isEmpty || decide (r.state ∈ sel.states)) &&
  (sel.categories.isEmpty || decide (r.category ∈ sel.categories)) &&
  (sel.subCategories.isEmpty || decide (r.subCategory ∈ sel.subCategories)) &&
  decide (sel.fromDate ≤ r.orderDate ∧ r.orderDate ≤ sel.toDate)

/-- The Aggregation Level radio (line 134). -/
inductive AggLevel
  | Daily
  | Weekly
  | Monthly
deriving DecidableEq, Repr

/-- The KPI radio for the time-series and product charts (lines 247-248). -/
inductive Metric
  | Sales
  | Quantity
  | Profit
  | MarginRate
  | AvgDiscount
deriving DecidableEq, Repr

def total_sales (d : List Row) : ℚ := (d.map Row.sales).sum

def total_quantity (d : List Row) : ℚ := (d.map Row.quantity).sum

def total_profit (d : List Row) : ℚ := (d.map Row.profit).sum

def avg_discount (d : List Row) : ℚ := (d.map Row.discount).sum / (d.length : ℚ)

/-- KPI block (lines 176-184): all five metrics are 0 on an empty frame;
otherwise `margin_rate = total_profit / total_sales if total_sales else 0`.
The Discount column is always present in this model, so the
`"Discount" in df.columns` test of line 184 is always true. -/
def kpis (d : List Row) : ℚ × ℚ × ℚ × ℚ × ℚ :=
  if d.isEmpty then (0, 0, 0, 0, 0)
  else (total_sales d, total_quantity d, total_profit d,
        if total_sales d ≠ 0 then total_profit d / total_sales d else 0,
        avg_discount d)

/-- Stable insertion: `x` is placed before the first element `y` with
`le x y`; used to model Python `sorted` and pandas `sort_values`. -/
def insertBy {α : Type} (le : α → α → Bool) (x : α) : List α → List α
  | [] => [x]
  | y :: ys => if le x y then x :: y :: ys else y :: insertBy le x ys

/-- Stable insertion sort. -/
def sortBy {α : Type} (le : α → α → Bool) : List α → List α
  | [] => []
  | x :: xs => insertBy le x (sortBy le xs)

/-- `pd.unique`: distinct values in first-occurrence order. -/
def uniqueFirst {α : Type} [DecidableEq α] : List α → List α
  | [] => []
  | x :: xs => x :: (uniqueFirst xs).filter (fun y => decide (y ≠ x))

def strLe (a b : String) : Bool := decide (a ≤ b)

/-- `sorted(column.dropna().unique())`: distinct values in ascending order
(no missing values arise in this model). -/
def uniqueSorted (l : List String) : List String := sortBy strLe (uniqueFirst l)

/-- `all_regions` (line 137): options come from the original frame. -/
def all_regions (orig : List Row) : List String := uniqueSorted (orig.map Row.region)

/-- `all_states` (line 142): options come from the frame narrowed by the
region filter. -/
def all_states (sel : Selection) (orig : List Row) : List String :=
  uniqueSorted ((filterRegion sel orig).map Row.state)

/-- `all_categories` (line 147): options come from the frame narrowed by
the region and state filters. -/
def all_categories (sel : Selection) (orig : List Row) : List String :=
  uniqueSorted ((filterState sel (filterRegion sel orig)).map Row.category)

/-- `all_subcategories` (line 152): options come from the frame narrowed by
the region, state and category filters. -/
def all_subcategories (sel : Selection) (orig : List Row) : List String :=
  uniqueSorted ((filterCategory sel (filterState sel (filterRegion sel orig))).map Row.subCategory)

/-- `year * 12 + (month - 1)` of a day count since 1970-01-01 (standard
civil-from-days conversion, proleptic Gregorian): the pandas resample key
for Monthly granularity. -/
def monthIndex (z : ℤ) : ℤ :=
  let z2 := z + 719468
  let era := Int.fdiv z2 146097
  let doe := z2 - era * 146097
  let yoe := Int.fdiv (doe - Int.fdiv doe 1460 + Int.fdiv doe 36524 - Int.fdiv doe 146096) 365
  let y := yoe + era * 400
  let doy := doe - (365 * yoe + Int.fdiv yoe 4 - Int.fdiv yoe 100)
  let mp := Int.fdiv (5 * doy + 2) 153
  let m := if mp < 10 then mp + 3 else mp - 9
  let y2 := if m ≤ 2 then y + 1 else y
  y2 * 12 + (m - 1)

/-- The Sunday on or after a given day: the label of the pandas weekly
(`"W"`, week ending Sunday) bucket containing that day. Day 0
(1970-01-01) was a Thursday. -/
def weekKey (z : ℤ) : ℤ :=
  z + Int.emod (7 - Int.emod (z + 4) 7) 7

/-- Resample bucket key of a day at each granularity. -/
def bucketKey : AggLevel → ℤ → ℤ
  | AggLevel.Daily, z => z
  | AggLevel.Weekly, z => weekKey z
  | AggLevel.Monthly, z => monthIndex z

/-- Distance between consecutive bucket keys. -/
def keyStep : AggLevel → ℤ
  | AggLevel.Daily => 1
  | AggLevel.Weekly => 7
  | AggLevel.Monthly => 1

/-- One resample bucket: sums of Sales/Quantity/Profit, mean Discount
(`none`, i.e. NaN, when the bucket is empty), per `agg_dict`
(lines 255-260). -/
structure Bucket where
  key : ℤ
  sales : ℚ
  quantity : ℚ
  profit : ℚ
  discount : Option ℚ
deriving DecidableEq, Repr

def bucketOf (g : AggLevel) (d : List Row) (k : ℤ) : Bucket :=
  let rows := d.filter (fun r => decide (bucketKey g r.orderDate = k))
  { key := k
    sales := (rows.map Row.sales).sum
    quantity := (rows.map Row.quantity).sum
    profit := (rows.map Row.profit).sum
    discount := if rows.isEmpty then none
                else some ((rows.map Row.discount).sum / (rows.length : ℚ)) }

/-- The full spine of bucket keys from the earliest to the latest occupied
bucket (pandas resample emits empty buckets in between). -/
def spine (g : AggLevel) (d : List Row) : List ℤ :=
  match d.map (fun r => bucketKey g r.orderDate) with
  | [] => []
  | k :: ks =>
    let kmin := ks.foldl min k
    let kmax := ks.foldl max k
    let n := (Int.fdiv (kmax - kmin) (keyStep g) + 1).toNat
    (List.range n).map (fun i => kmin + keyStep g * (i : ℤ))

/-- `df_sorted.resample(...).agg(agg_dict)` (lines 262-269). Sorting the
frame by Order Date first (line 252) does not change any bucket's
contents, since each bucket aggregates the same set of rows. -/
def resample (g : AggLevel) (d : List Row) : List Bucket :=
  (spine g d).map (bucketOf g d)

/-- A resample bucket after the derived columns of lines 273-274. -/
structure BucketM where
  key : ℤ
  sales : ℚ
  quantity : ℚ
  profit : ℚ
  discount : Option ℚ
  marginRate : ℚ
  avgDiscount : Option ℚ
deriving DecidableEq, Repr

/-- `df_agg["Margin Rate"] = df_agg["Profit"] / df_agg["Sales"].replace(0, 1)`
(line 273) and `df_agg["Avg Discount"] = df_agg["Discount"]` (line 274). -/
def withMargin (bs : List Bucket) : List BucketM :=
  bs.map (fun b =>
    let denom : ℚ := if b.sales = 0 then 1 else b.sales
    { key := b.key, sales := b.sales, quantity := b.quantity, profit := b.profit,
      discount := b.discount,
      marginRate := b.profit / denom,
      avgDiscount := b.discount })

/-- `df_agg` (lines 262-274). -/
def df_agg (g : AggLevel) (d : List Row) : List BucketM := withMargin (resample g d)

/-- `rolling_window` (lines 262-270): 30 for Daily, 4 for Weekly,
3 for Monthly. -/
def rolling_window : AggLevel → ℕ
  | AggLevel.Daily => 30
  | AggLevel.Weekly => 4
  | AggLevel.Monthly => 3

/-- `Series.rolling(window=w).mean()` with the default `min_periods = w`:
the value is `none` (NaN) until `w` cells have accumulated and whenever
the trailing window contains a NaN cell, otherwise the mean of the last
`w` cells. -/
def rollingMean (w : ℕ) (xs : List (Option ℚ)) : List (Option ℚ) :=
  (List.range xs.length).map (fun i =>
    if i + 1 < w then none
    else
      let win := (xs.drop (i + 1 - w)).take w
      if win.all Option.isSome then
        some ((win.map (fun o => o.getD 0)).sum / (w : ℚ))
      else none)

/-- The column of `df_agg` selected by the KPI radio. -/
def metricColumn (m : Metric) (bs : List BucketM) : List (Option ℚ) :=
  match m with
  | Metric.Sales => bs.map (fun b => some b.sales)
  | Metric.Quantity => bs.map (fun b => some b.quantity)
  | Metric.Profit => bs.map (fun b => some b.profit)
  | Metric.MarginRate => bs.map (fun b => some b.marginRate)
  | Metric.AvgDiscount => bs.map (fun b => b.avgDiscount)

/-- The `Rolling_Avg_{kpi}` column (line 275). -/
def rollingAvgColumn (g : AggLevel) (m : Metric) (d : List Row) : List (Option ℚ) :=
  rollingMean (rolling_window g) (metricColumn m (df_agg g d))

/-- Arithmetic mean of a list of rationals. -/
def arithMean (l : List ℚ) : ℚ := l.sum / (l.length : ℚ)

/-- `df_monthly` (lines 359-360): the Additional Insights "Sales and Profit
Over Time" frame resamples at fixed `"M"` granularity; `agg_level` is in
scope but not consulted. Only the Margin Rate column is derived here. -/
structure MBucket where
  key : ℤ
  sales : ℚ
  quantity : ℚ
  profit : ℚ
  discount : Option ℚ
  marginRate : ℚ
deriving DecidableEq, Repr

def df_monthly (_g : AggLevel) (d : List Row) : List MBucket :=
  (resample AggLevel.Monthly d).map (fun b =>
    let denom : ℚ := if b.sales = 0 then 1 else b.sales
    { key := b.key, sales := b.sales, quantity := b.quantity, profit := b.profit,
      discount := b.discount,
      marginRate := b.profit / denom })

/-- One group of `product_grouped` (lines 299-306). -/
structure PGroup where
  productName : String
  sales : ℚ
  quantity : ℚ
  profit : ℚ
  discount : ℚ
  marginRate : ℚ
  avgDiscount : ℚ
deriving DecidableEq, Repr

/-- Group keys of `groupby("Product Name")`; pandas lists them in ascending
order (`sort=True` default). -/
def productNames (d : List Row) : List String := uniqueSorted (d.map Row.productName)

def groupAgg (d : List Row) (p : String) : PGroup :=
  let rows := d.filter (fun r => decide (r.productName = p))
  let s := (rows.map Row.sales).sum
  let pr := (rows.map Row.profit).sum
  let disc := (rows.map Row.discount).sum / (rows.length : ℚ)
  { productName := p
    sales := s
    quantity := (rows.map Row.quantity).sum
    profit := pr
    discount := disc
    marginRate := pr / (if s = 0 then 1 else s)
    avgDiscount := disc }

/-- `product_grouped` (lines 299-306): per-product sums of
Sales/Quantity/Profit, mean temporary Discount, Margin Rate via
`.replace(0, 1)`, Avg Discount. -/
def product_grouped (d : List Row) : List PGroup :=
  (productNames d).map (groupAgg d)

def metricOf (m : Metric) (p : PGroup) : ℚ :=
  match m with
  | Metric.Sales => p.sales
  | Metric.Quantity => p.quantity
  | Metric.Profit => p.profit
  | Metric.MarginRate => p.marginRate
  | Metric.AvgDiscount => p.avgDiscount

/-- The contract of `sort_values(by=selected_kpi, ascending=False)`
(line 307) with its default `kind` (quicksort): the output is some
permutation of the input rows in which the by-column is descending;
pandas documents only `kind` mergesort/stable as stable, so the relative
order of tied rows is not guaranteed and is left unspecified here.
`top_10` is then the first 10 rows of such an output (line 308). -/
def SortValuesResult (m : Metric) (inp out : List PGroup) : Prop :=
  out.Perm inp ∧ out.Pairwise (fun a b => metricOf m b ≤ metricOf m a)

/-- The per-transaction margin lambda of line 383:
`row["Profit"] / row["Sales"] if row["Sales"] != 0 else 0`. -/
def transactionMargin (r : Row) : ℚ :=
  if r.sales ≠ 0 then r.profit / r.sales else 0

/-- The in-place `df["Profit Margin"] = df.apply(...)` of line 383: the
working dataset after the Discount-vs-Margin chart builder has run. -/
def addProfitMargin (d : List Row) : List Row :=
  d.map (fun r => { r with profitMargin := some (transactionMargin r) })

/-- All columns of a row except the added Profit Margin column. -/
def coreColumns (r : Row) : ℤ × String × String × String × String × String × ℚ × ℚ × ℚ × ℚ :=
  (r.orderDate, r.region, r.state, r.category, r.subCategory, r.productName,
   r.sales, r.quantity, r.profit, r.discount)

/-- A concrete transaction with zero sales but nonzero profit. -/
def rowZ : Row :=
  { orderDate := 0, region := "West", state := "California",
    category := "Furniture", subCategory := "Chairs", productName := "Desk",
    sales := 0, quantity := 1, profit := 5, discount := 0 }

/-- A concrete ordinary transaction. -/
def rowA : Row :=
  { orderDate := 0, region := "West", state := "California",
    category := "Furniture", subCategory := "Chairs", productName := "Desk",
    sales := 100, quantity := 2, profit := 10, discount := 1/10 }

/-- The selection that leaves every dimension unrestricted. -/
def selAll : Selection :=
  { regions := [], states := [], categories := [], subCategories := [],
    fromDate := 0, toDate := 0 }

/-- A selection restricting the region dimension. -/
def selEast : Selection := { selAll with regions := ["East"] }

/-- A selection whose date range is inverted. -/
def selBad : Selection := { selAll with fromDate := 1, toDate := 0 }

/-- The bucket `df_agg` produces for the singleton frame `[rowA]` at
Monthly granularity. -/
def bA : BucketM :=
  { key := 23640, sales := 100, quantity := 2, profit := 10,
    discount := some (1/10), marginRate := 1/10, avgDiscount := some (1/10) }

/-- The group `product_grouped` produces for the singleton frame `[rowA]`. -/
def pA : PGroup :=
  { productName := "Desk", sales := 100, quantity := 2, profit := 10,
    discount := 1/10, marginRate := 1/10, avgDiscount := 1/10 }

/-- Two transactions with distinct product names and equal sales: their
two product groups are tied on the Sales metric. -/
def rowTa : Row :=
  { orderDate := 0, region := "West", state := "California",
    category := "Furniture", subCategory := "Chairs", productName := "A",
    sales := 7, quantity := 1, profit := 1, discount := 0 }

def rowTb : Row :=
  { orderDate := 0, region := "West", state := "California",
    category := "Furniture", subCategory := "Chairs", productName := "B",
    sales := 7, quantity := 1, profit := 2, discount := 0 }

def dTie : List Row := [rowTa, rowTb]

/-- The product group of `rowTa` in `dTie`. -/
def gA : PGroup :=
  { productName := "A", sales := 7, quantity := 1, profit := 1,
    discount := 0, marginRate := 1/7, avgDiscount := 0 }

/-- The product group of `rowTb` in `dTie`. -/
def gB : PGroup :=
  { productName := "B", sales := 7, quantity := 1, profit := 2,
    discount := 0, marginRate := 2/7, avgDiscount := 0 }

/-- The bucket `df_agg` produces for the singleton frame `[rowZ]` at
Monthly granularity: zero sales, margin rate equal to the profit. -/
def bZ : BucketM :=
  { key := 23640, sales := 0, quantity := 1, profit := 5,
    discount := some 0, marginRate := 5, avgDiscount := some 0 }

/-- A concrete metric column for evaluating the rolling average. -/
def xsW : List ℚ := [1, 2, 3, 4]

theorem filterRegion_eq_filter (sel : Selection) (d : List Row) :
    filterRegion sel d
      = d.filter (fun r => sel.regions.isEmpty || decide (r.region ∈ sel.regions)) := by
  by_cases h : sel.regions.isEmpty <;> simp [filterRegion, h]

theorem filterState_eq_filter (sel : Selection) (d : List Row) :
    filterState sel d
      = d.filter (fun r => sel.states.isEmpty || decide (r.state ∈ sel.states)) := by
  by_cases h : sel.states.isEmpty <;> simp [filterState, h]

theorem filterCategory_eq_filter (sel : Selection) (d : List Row) :
    filterCategory sel d
      = d.filter (fun r => sel.categories.isEmpty || decide (r.category ∈ sel.categories)) := by
  by_cases h : sel.categories.isEmpty <;> simp [filterCategory, h]

theorem filterSubCategory_eq_filter (sel : Selection) (d : List Row) :
    filterSubCategory sel d
      = d.filter (fun r => sel.subCategories.isEmpty || decide (r.subCategory ∈ sel.subCategories)) := by
  by_cases h : sel.subCategories.isEmpty <;> simp [filterSubCategory, h]

/-- The whole pipeline is a single row-wise filter by `rowMatches`. -/
theorem workingDataset_eq_filter (sel : Selection) (d : List Row) :
    workingDataset sel d = d.filter (rowMatches sel) := by
  unfold workingDataset filterDate
  rw [filterSubCategory_eq_filter, filterCategory_eq_filter, filterState_eq_filter,
    filterRegion_eq_filter, List.filter_filter, List.filter_filter, List.filter_filter,
    List.filter_filter]
  apply List.filter_congr
  intro r _
  unfold rowMatches
  cases sel.regions.isEmpty <;> cases sel.states.isEmpty <;>
    cases sel.categories.isEmpty <;> cases sel.subCategories.isEmpty <;>
    simp [Bool.and_assoc, Bool.and_comm, Bool.and_left_comm]

theorem length_filter_mono {α : Type} {p q : α → Bool} :
    ∀ l : List α, (∀ a, a ∈ l → p a = true → q a = true) →
      (l.filter p).length ≤ (l.filter q).length := by
  intro l
  induction l with
  | nil => intro _; simp
  | cons a t ih =>
    intro h
    have ht : ∀ b, b ∈ t → p b = true → q b = true := by
      intro b hb; exact h b (List.mem_cons_of_mem a hb)
    by_cases hp : p a = true
    · have hq : q a = true := h a (List.mem_cons_self a t) hp
      simp [List.filter_cons, hp, hq]
      exact ih ht
    · simp [List.filter_cons, hp]
      cases hqa : q a <;> simp [hqa]
      · exact ih ht
      · exact Nat.le_succ_of_le (ih ht)

theorem mem_insertBy {α : Type} (le : α → α → Bool) (x a : α) :
    ∀ l : List α, (a ∈ insertBy le x l ↔ a = x ∨ a ∈ l) := by
  intro l
  induction l with
  | nil => simp [insertBy]
  | cons y ys ih =>
    by_cases h : le x y = true
    · simp [insertBy, h]
    · simp [insertBy, h, ih]
      tauto

theorem mem_sortBy {α : Type} (le : α → α → Bool) (a : α) :
    ∀ l : List α, (a ∈ sortBy le l ↔ a ∈ l) := by
  intro l
  induction l with
  | nil => simp [sortBy]
  | cons x xs ih => simp [sortBy, mem_insertBy, ih]

theorem mem_uniqueFirst {α : Type} [DecidableEq α] (a : α) :
    ∀ l : List α, (a ∈ uniqueFirst l ↔ a ∈ l) := by
  intro l
  induction l with
  | nil => simp [uniqueFirst]
  | cons x xs ih =>
    by_cases hax : a = x
    · simp [uniqueFirst, hax]
    · simp [uniqueFirst, hax, List.mem_filter, ih]

theorem mem_uniqueSorted (a : String) (l : List String) :
    a ∈ uniqueSorted l ↔ a ∈ l := by
  simp [uniqueSorted, mem_sortBy, mem_uniqueFirst]

/-- C2: on the empty working dataset the KPI block returns all five metrics
(total sales, total quantity, total profit, margin rate, average discount)
equal to 0 and raises no error (src/app.py lines 177-178). -/
theorem kpisEmptyDataset : kpis [] = (0, 0, 0, 0, 0) := rfl

/-- C3: the filter pipeline applies region, state, category, sub-category,
date-range in that fixed order; each categorical filter passes its input
through unchanged when its selection set is empty and otherwise retains
exactly the rows whose value for that column is in the selection set; the
date-range filter retains exactly the rows with order date in the closed
interval from `from` to `to`. -/
theorem filterPipelineSemantics (sel : Selection) (d : List Row) :
    workingDataset sel d
        = filterDate sel (filterSubCategory sel (filterCategory sel (filterState sel (filterRegion sel d))))
      ∧ filterRegion { sel with regions := [] } d = d
      ∧ filterState { sel with states := [] } d = d
      ∧ filterCategory { sel with categories := [] } d = d
      ∧ filterSubCategory { sel with subCategories := [] } d = d
      ∧ filterRegion sel d = d.filter (fun r => sel.regions.isEmpty || decide (r.region ∈ sel.regions))
      ∧ filterState sel d = d.filter (fun r => sel.states.isEmpty || decide (r.state ∈ sel.states))
      ∧ filterCategory sel d
          = d.filter (fun r => sel.categories.isEmpty || decide (r.category ∈ sel.categories))
      ∧ filterSubCategory sel d
          = d.filter (fun r => sel.subCategories.isEmpty || decide (r.subCategory ∈ sel.subCategories))
      ∧ (∀ r : Row, r ∈ filterDate sel d ↔ r ∈ d ∧ sel.fromDate ≤ r.orderDate ∧ r.orderDate ≤ sel.toDate) := by
  refine ⟨rfl, ?_, ?_, ?_, ?_, filterRegion_eq_filter sel d, filterState_eq_filter sel d,
    filterCategory_eq_filter sel d, filterSubCategory_eq_filter sel d, ?_⟩
  · simp [filterRegion]
  · simp [filterState]
  · simp [filterCategory]
  · simp [filterSubCategory]
  · intro r
    simp [filterDate, List.mem_filter]

/-- C4: the pipeline's output is a sublist (hence a subset) of its input,
and a selection that restricts at least as much row-wise never yields a
larger output row count. -/
theorem filterPipelineMonotone (sel selR : Selection) (d : List Row)
    (h : ∀ r, r ∈ d → rowMatches selR r = true → rowMatches sel r = true) :
    (workingDataset sel d).Sublist d
      ∧ (workingDataset selR d).length ≤ (workingDataset sel d).length := by
  constructor
  · rw [workingDataset_eq_filter]
    exact List.filter_sublist d
  · rw [workingDataset_eq_filter, workingDataset_eq_filter]
    exact length_filter_mono d h

/-- Witness for C4 at a concrete dataset and a concrete pair of
selections, the second restricting the region dimension. -/
theorem filterPipelineMonotoneWitness :
    (workingDataset selAll [rowA]).Sublist [rowA]
      ∧ (workingDataset selEast [rowA]).length ≤ (workingDataset selAll [rowA]).length :=
  filterPipelineMonotone selAll selEast [rowA] (by decide)

/-- C7: with an inverted date range (`from > to`) the pipeline still runs
to completion, the sidebar warning condition fires, and the working
dataset comes out empty; no fatal error occurs. -/
theorem invalidDateRange (sel : Selection) (d : List Row)
    (h : sel.toDate < sel.fromDate) :
    dateRangeWarning sel = true ∧ workingDataset sel d = [] := by
  constructor
  · simp [dateRangeWarning, h]
  · rw [workingDataset_eq_filter]
    induction d with
    | nil => rfl
    | cons r t ih =>
      have hr : rowMatches sel r = false := by
        unfold rowMatches
        have hnot : ¬(sel.fromDate ≤ r.orderDate ∧ r.orderDate ≤ sel.toDate) := by
          rintro ⟨h1, h2⟩
          exact absurd (le_trans h1 h2) (not_le.mpr h)
        simp [hnot]
      simp [List.filter_cons, hr, ih]

/-- Witness for C7 at a concrete inverted date range. -/
theorem invalidDateRangeWitness :
    dateRangeWarning selBad = true ∧ workingDataset selBad [rowA] = [] :=
  invalidDateRange selBad [rowA] (by decide)

/-- C8: each categorical dimension's candidate option set is derived from
the dataset narrowed by the filters applied before it in the cascade order
region, state, category, sub-category, and an empty selected set acts as
no filtering on its dimension. -/
theorem cascadeOptionsInvariant (sel : Selection) (orig : List Row) :
    (∀ x : String, x ∈ all_regions orig ↔ ∃ r ∈ orig, r.region = x)
      ∧ (∀ x : String, x ∈ all_states sel orig ↔ ∃ r ∈ filterRegion sel orig, r.state = x)
      ∧ (∀ x : String, x ∈ all_categories sel orig
            ↔ ∃ r ∈ filterState sel (filterRegion sel orig), r.category = x)
      ∧ (∀ x : String, x ∈ all_subcategories sel orig
            ↔ ∃ r ∈ filterCategory sel (filterState sel (filterRegion sel orig)), r.subCategory = x)
      ∧ filterRegion { sel with regions := [] } orig = orig
      ∧ filterState { sel with states := [] } orig = orig
      ∧ filterCategory { sel with categories := [] } orig = orig
      ∧ filterSubCategory { sel with subCategories := [] } orig = orig := by
  refine ⟨?_, ?_, ?_, ?_, ?_, ?_, ?_, ?_⟩
  · intro x; simp [all_regions, mem_uniqueSorted, List.mem_map]
  · intro x; simp [all_states, mem_uniqueSorted, List.mem_map]
  · intro x; simp [all_categories, mem_uniqueSorted, List.mem_map]
  · intro x; simp [all_subcategories, mem_uniqueSorted, List.mem_map]
  · simp [filterRegion]
  · simp [filterState]
  · simp [filterCategory]
  · simp [filterSubCategory]

theorem drop_take_eq_map_range (xs : List ℚ) (a w : ℕ) (h : a + w ≤ xs.length) :
    (xs.drop a).take w = (List.range w).map (fun j => xs.getD (a + j) 0) := by
  apply List.ext_getElem
  · simp
    omega
  · intro i h1 h2
    have hi : i < w := by simpa using h2
    have hai : a + i < xs.length := by omega
    simp [List.getD_eq_getElem?_getD, List.getElem?_eq_getElem hai]

theorem rollingMean_length (w : ℕ) (xs : List (Option ℚ)) :
    (rollingMean w xs).length = xs.length := by
  simp [rollingMean]

theorem rollingMean_undefined {w : ℕ} {xs : List (Option ℚ)} {i : ℕ}
    (hi : i < xs.length) (hw : i + 1 < w) :
    (rollingMean w xs)[i]? = some none := by
  rw [rollingMean, List.getElem?_map, List.getElem?_range hi]
  simp [hw]

theorem rollingMean_defined {w : ℕ} {xs : List ℚ} {i : ℕ}
    (hi : i < xs.length) (hw : w ≤ i + 1) :
    (rollingMean w (xs.map some))[i]?
      = some (some (arithMean ((List.range w).map (fun j => xs.getD (i + 1 - w + j) 0)))) := by
  have hi2 : i < (xs.map some).length := by simpa using hi
  rw [rollingMean, List.getElem?_map, List.getElem?_range hi2]
  have hnlt : ¬(i + 1 < w) := Nat.not_lt.mpr hw
  have hslice : ((xs.map some).drop (i + 1 - w)).take w
      = ((xs.drop (i + 1 - w)).take w).map some := by
    rw [← List.map_drop, ← List.map_take]
  have hbound : (i + 1 - w) + w ≤ xs.length := by omega
  simp only [Option.map_some']
  rw [if_neg hnlt, hslice]
  have hall : ((List.map some ((xs.drop (i + 1 - w)).take w)).all Option.isSome) = true := by
    rw [List.all_eq_true]
    intro x hx
    obtain ⟨a, _, rfl⟩ := List.mem_map.mp hx
    rfl
  rw [if_pos hall, List.map_map]
  have hcomp : ((fun o : Option ℚ => o.getD 0) ∘ some) = fun x : ℚ => x := by
    funext a
    rfl
  rw [hcomp, List.map_id', drop_take_eq_map_range xs (i + 1 - w) w hbound, arithMean]
  have hlen : ((List.range w).map (fun j => xs.getD ((i + 1 - w) + j) 0)).length = w := by
    simp
  rw [hlen]

/-- C5: the rolling window is 30 for Daily, 4 for Weekly, 3 for Monthly;
the rolling-average column is undefined at positions before `window - 1`,
and from position `window - 1` on it equals the arithmetic mean of the
selected metric over the trailing `window` positions. -/
theorem rollingAverageSpec (g : AggLevel) (m : Metric) (d : List Row)
    (w : ℕ) (xs : List ℚ) (i : ℕ) (hi : i < xs.length) :
    (rolling_window AggLevel.Daily = 30 ∧ rolling_window AggLevel.Weekly = 4
        ∧ rolling_window AggLevel.Monthly = 3)
      ∧ rollingAvgColumn g m d = rollingMean (rolling_window g) (metricColumn m (df_agg g d))
      ∧ (i + 1 < w → (rollingMean w (xs.map some))[i]? = some none)
      ∧ (w ≤ i + 1 →
          (rollingMean w (xs.map some))[i]?
            = some (some (arithMean ((List.range w).map (fun j => xs.getD (i + 1 - w + j) 0))))) := by
  refine ⟨⟨rfl, rfl, rfl⟩, rfl, ?_, ?_⟩
  · intro hw
    exact rollingMean_undefined (by simpa using hi) hw
  · intro hw
    exact rollingMean_defined hi hw

/-- Witness for C5 at window 3 (Monthly) and a concrete metric column. -/
theorem rollingAverageSpecWitness :
    (rolling_window AggLevel.Daily = 30 ∧ rolling_window AggLevel.Weekly = 4
        ∧ rolling_window AggLevel.Monthly = 3)
      ∧ rollingAvgColumn AggLevel.Monthly Metric.Sales [rowA]
          = rollingMean (rolling_window AggLevel.Monthly)
              (metricColumn Metric.Sales (df_agg AggLevel.Monthly [rowA]))
      ∧ (3 + 1 < 3 → (rollingMean 3 (xsW.map some))[3]? = some none)
      ∧ (3 ≤ 3 + 1 →
          (rollingMean 3 (xsW.map some))[3]?
            = some (some (arithMean ((List.range 3).map (fun j => xsW.getD (3 + 1 - 3 + j) 0))))) :=
  rollingAverageSpec AggLevel.Monthly Metric.Sales [rowA] 3 xsW 3 (by decide)

theorem strLe_AB : strLe "A" "B" = true := by
  apply decide_eq_true
  exact le_of_lt (String.lt_iff_toList_lt.mpr (by decide))

theorem decEqBA : (decide (("B" : String) = "A")) = false := by decide

theorem decEqAB : (decide (("A" : String) = "B")) = false := by decide

theorem decNeBA : (decide (("B" : String) ≠ "A")) = true := by decide

theorem product_grouped_dTie : product_grouped dTie = [gA, gB] := by
  norm_num [product_grouped, productNames, uniqueSorted, uniqueFirst, sortBy, insertBy,
    strLe_AB, decEqBA, decEqAB, decNeBA, groupAgg, dTie, rowTa, rowTb, gA, gB, List.filter]

/-- C6 fails as stated: line 307 sorts with `sort_values` and the default
`kind` (quicksort), which pandas documents as not stable, so the program
does not guarantee that tied groups retain their prior order: for the two
product groups of `dTie`, tied on the Sales metric, the output listing
them in the opposite of their prior order satisfies everything the sort
guarantees (a permutation of the groups, descending on the metric), yet
its tied rows are not in the prior order. -/
theorem sortValuesTieNotGuaranteed :
    SortValuesResult Metric.Sales (product_grouped dTie) [gB, gA]
      ∧ (([gB, gA].map PGroup.productName)
          = ((product_grouped dTie).map PGroup.productName)) = False := by
  refine ⟨⟨?_, ?_⟩, eq_false ?_⟩
  · rw [product_grouped_dTie]
    exact List.Perm.swap gA gB []
  · norm_num [List.pairwise_cons, metricOf, gA, gB]
  · intro h
    rw [product_grouped_dTie] at h
    exact absurd h (by decide)

/-- C6 amended: the Top-N aggregator groups by product name, summing
Sales, Quantity and Profit, averaging Discount and deriving the margin
rate per group, then sorts the groups descending by the selected metric
and keeps the first 10; the sort guarantees only a permutation of the
product groups in descending metric order (the relative order of
metric-tied groups is unspecified), and every output meeting that
guarantee yields at most 10 rows, sorted descending, each row one of the
product groups with the stated aggregates. -/
theorem topProductsContract (m : Metric) (d : List Row) (out : List PGroup)
    (_hd : d ≠ []) (hout : SortValuesResult m (product_grouped d) out) :
    (out.take 10).length ≤ 10
      ∧ (out.take 10).Pairwise (fun a b => metricOf m b ≤ metricOf m a)
      ∧ (∀ p, p ∈ out ↔ p ∈ product_grouped d)
      ∧ (∀ p, p ∈ out →
          p.sales = ((d.filter (fun r => decide (r.productName = p.productName))).map Row.sales).sum
          ∧ p.quantity
              = ((d.filter (fun r => decide (r.productName = p.productName))).map Row.quantity).sum
          ∧ p.profit
              = ((d.filter (fun r => decide (r.productName = p.productName))).map Row.profit).sum
          ∧ p.discount
              = ((d.filter (fun r => decide (r.productName = p.productName))).map Row.discount).sum
                  / ((d.filter (fun r => decide (r.productName = p.productName))).length : ℚ)
          ∧ p.marginRate = p.profit / (if p.sales = 0 then (1 : ℚ) else p.sales)
          ∧ p.avgDiscount = p.discount) := by
  obtain ⟨hperm, hsort⟩ := hout
  refine ⟨List.length_take_le 10 _,
    List.Pairwise.sublist (List.take_sublist 10 _) hsort, ?_, ?_⟩
  · intro p
    exact hperm.mem_iff
  · intro p hp
    have hp2 : p ∈ product_grouped d := hperm.mem_iff.mp hp
    rw [product_grouped] at hp2
    obtain ⟨nm, hnm, rfl⟩ := List.mem_map.mp hp2
    exact ⟨rfl, rfl, rfl, rfl, rfl, rfl⟩

/-- Witness for C6 (amended) at the two-product tied dataset, with the
prior-order output, one admissible result of the sort. -/
theorem topProductsContractWitness :
    (([gA, gB] : List PGroup).take 10).length ≤ 10
      ∧ (([gA, gB] : List PGroup).take 10).Pairwise
          (fun a b => metricOf Metric.Sales b ≤ metricOf Metric.Sales a)
      ∧ (∀ p, p ∈ ([gA, gB] : List PGroup) ↔ p ∈ product_grouped dTie)
      ∧ (∀ p, p ∈ ([gA, gB] : List PGroup) →
          p.sales = ((dTie.filter (fun r => decide (r.productName = p.productName))).map Row.sales).sum
          ∧ p.quantity
              = ((dTie.filter (fun r => decide (r.productName = p.productName))).map Row.quantity).sum
          ∧ p.profit
              = ((dTie.filter (fun r => decide (r.productName = p.productName))).map Row.profit).sum
          ∧ p.discount
              = ((dTie.filter (fun r => decide (r.productName = p.productName))).map Row.discount).sum
                  / ((dTie.filter (fun r => decide (r.productName = p.productName))).length : ℚ)
          ∧ p.marginRate = p.profit / (if p.sales = 0 then (1 : ℚ) else p.sales)
          ∧ p.avgDiscount = p.discount) :=
  topProductsContract Metric.Sales dTie [gA, gB] (by decide)
    ⟨by rw [product_grouped_dTie], by norm_num [List.pairwise_cons, metricOf, gA, gB]⟩

theorem monthIndex_zero : monthIndex 0 = 23640 := by decide

theorem spine_rowA : spine AggLevel.Monthly [rowA] = [23640] := by
  decide

theorem spine_rowZ : spine AggLevel.Monthly [rowZ] = [23640] := by
  decide

theorem df_agg_rowA : df_agg AggLevel.Monthly [rowA] = [bA] := by
  rw [df_agg, resample, spine_rowA]
  norm_num [withMargin, bucketOf, bucketKey, rowA, monthIndex_zero, bA, List.filter]

theorem df_agg_rowZ : df_agg AggLevel.Monthly [rowZ] = [bZ] := by
  rw [df_agg, resample, spine_rowZ]
  norm_num [withMargin, bucketOf, bucketKey, rowZ, monthIndex_zero, bZ, List.filter]

theorem product_grouped_rowA : product_grouped [rowA] = [pA] := by
  norm_num [product_grouped, productNames, uniqueSorted, uniqueFirst, sortBy, insertBy,
    groupAgg, rowA, pA, List.filter]

/-- C1 fails as stated: a `df_agg` bucket with zero sales gets margin rate
Profit / 1 = Profit (line 273, `.replace(0, 1)`), not 0: one transaction
with sales 0 and profit 5 yields exactly one Monthly bucket, with sales 0
and margin rate 5, and 5 = 0 is false. -/
theorem marginRateZeroSalesBucket :
    (df_agg AggLevel.Monthly [rowZ]).map (fun b => (b.sales, b.marginRate)) = [(0, 5)]
      ∧ ((5 : ℚ) = 0) = False := by
  refine ⟨?_, eq_false (by norm_num)⟩
  rw [df_agg_rowZ]
  norm_num [bZ]

/-- C1 amended: margin rate equals profit/sales whenever sales is nonzero,
at every scope, and no division-by-zero failure occurs; when sales is 0 it
is exactly 0 at the overall-KPI and per-transaction scopes, but at the
per-bucket and per-product-group scopes the code divides by 1 instead, so
the margin rate there equals the profit. -/
theorem marginRateScopes (g : AggLevel) (d : List Row) (b : BucketM) (p : PGroup)
    (hb : b ∈ df_agg g d) (hp : p ∈ product_grouped d) :
    (kpis d).2.2.2.1 = (if total_sales d = 0 then 0 else total_profit d / total_sales d)
      ∧ b.marginRate = (if b.sales = 0 then b.profit else b.profit / b.sales)
      ∧ p.marginRate = (if p.sales = 0 then p.profit else p.profit / p.sales)
      ∧ (∀ r : Row, transactionMargin r = (if r.sales = 0 then 0 else r.profit / r.sales)) := by
  refine ⟨?_, ?_, ?_, ?_⟩
  · by_cases hd : d.isEmpty
    · have hdnil : d = [] := List.isEmpty_iff.mp hd
      subst hdnil
      simp [kpis, total_sales]
    · have h1 : kpis d = (total_sales d, total_quantity d, total_profit d,
          if total_sales d ≠ 0 then total_profit d / total_sales d else 0, avg_discount d) := by
        rw [kpis, if_neg hd]
      rw [h1]
      by_cases hs : total_sales d = 0 <;> simp [hs]
  · rw [df_agg, withMargin] at hb
    obtain ⟨b0, _, rfl⟩ := List.mem_map.mp hb
    by_cases hs : b0.sales = 0 <;> simp [hs]
  · rw [product_grouped] at hp
    obtain ⟨nm, _, rfl⟩ := List.mem_map.mp hp
    by_cases hs : ((d.filter (fun r => decide (r.productName = nm))).map Row.sales).sum = 0 <;>
      simp [groupAgg, hs]
  · intro r
    by_cases hs : r.sales = 0 <;> simp [transactionMargin, hs]

/-- Witness for C1 (amended) at a concrete one-row dataset, its Monthly
bucket and its product group. -/
theorem marginRateScopesWitness :
    (kpis [rowA]).2.2.2.1
        = (if total_sales [rowA] = 0 then 0 else total_profit [rowA] / total_sales [rowA])
      ∧ bA.marginRate = (if bA.sales = 0 then bA.profit else bA.profit / bA.sales)
      ∧ pA.marginRate = (if pA.sales = 0 then pA.profit else pA.profit / pA.sales)
      ∧ (∀ r : Row, transactionMargin r = (if r.sales = 0 then 0 else r.profit / r.sales)) :=
  marginRateScopes AggLevel.Monthly [rowA] bA pA
    (by rw [df_agg_rowA]; exact List.mem_singleton_self bA)
    (by rw [product_grouped_rowA]; exact List.mem_singleton_self pA)

/-- C9 fails as stated: line 383 assigns a new Profit Margin column to the
working dataset `df` in place after `df` was already handed to the KPI
tiles, charts and CSV download, so the Discount-vs-Margin chart builder
does not leave the working dataset's columns unmodified. -/
theorem profitMarginColumnMutation :
    [rowA].map Row.profitMargin = [(none : Option ℚ)]
      ∧ (addProfitMargin [rowA]).map Row.profitMargin = [some ((1 : ℚ) / 10)]
      ∧ (addProfitMargin [rowA] = [rowA]) = False := by
  refine ⟨rfl, ?_, eq_false ?_⟩
  · norm_num [addProfitMargin, transactionMargin, rowA]
  · intro h
    simp [addProfitMargin, transactionMargin, rowA] at h

/-- C9 amended: every consumer of the working dataset except line 383 is
read-only in this pipeline, and line 383 itself only adds the Profit
Margin column: it preserves row count, row order and every other column,
the new column holding the per-transaction margin. -/
theorem componentOutputsPreserved (d : List Row) :
    (addProfitMargin d).map coreColumns = d.map coreColumns
      ∧ (addProfitMargin d).length = d.length
      ∧ (addProfitMargin d).map Row.profitMargin = d.map (fun r => some (transactionMargin r)) := by
  refine ⟨?_, ?_, ?_⟩
  · rw [addProfitMargin, List.map_map]
    rfl
  · simp [addProfitMargin]
  · rw [addProfitMargin, List.map_map]
    rfl

/-- C10: the Additional Insights "Sales and Profit Over Time" frame is
resampled at fixed Monthly granularity: the user-selected aggregation
level has no effect on it, and its contents coincide with the Monthly
branch of the time-series aggregator. -/
theorem insightChartMonthly (g g2 : AggLevel) (d : List Row) :
    df_monthly g d = df_monthly g2 d
      ∧ (df_monthly g d).map (fun b => (b.key, b.sales, b.profit))
          = (resample AggLevel.Monthly d).map (fun b => (b.key, b.sales, b.profit))
      ∧ (df_monthly g d).map MBucket.marginRate
          = (df_agg AggLevel.Monthly d).map BucketM.marginRate := by
  refine ⟨rfl, ?_, ?_⟩
  · rw [df_monthly, List.map_map]
    rfl
  · rw [df_monthly, df_agg, withMargin, List.map_map, List.map_map]
    rfl

end SuperStore
